import Mathlib

/-!
Shallow embedding of `src/openspeech/models/lstm_lm/model.py`
(class `LSTMLanguageModel`) and of the forward contract exercised by
`src/openspeech/encoders/test_conformer_transducer.py`.

Tensors are modelled elementwise: an integer (batch, time) tensor is a
list of rows of token ids, a float (batch, time, classes) logits tensor
is a list of rows of per-step score vectors, and float scalars are
rationals. The external collaborators (the `LSTMDecoder`, the loss
criterion, the WER/CER metrics) are abstract functions carried as fields
of the wrapper state, exactly as the Python object holds references to
them. Python dictionaries returned by the methods are association lists
over a value sum type. Methods are translated in state-passing style:
each returns its result together with the wrapper state after the call,
so that attribute writes (only `build_model` performs one) are visible.
-/

/-- Float scalars of the tensor runtime, modelled as rationals. -/
abbrev Scalar := ℚ

/-- An integer tensor of shape (batch, time): token ids, as in `inputs`,
`targets` and the argmax predictions. -/
abbrev IdTensor := List (List Int)

/-- A float tensor of shape (batch, time, num_classes): per-step class
scores as produced by the decoder. -/
abbrev LogitTensor := List (List (List Scalar))

/-- A float tensor of shape (batch, time, feature): acoustic inputs of
the transducer test. -/
abbrev FeatTensor := List (List (List Scalar))

/-- The external `LSTMDecoder` instance as called by the wrapper:
`self.lm(inputs, teacher_forcing_ratio=r)` maps the input ids and the
forcing ratio to logits. -/
abbrev DecoderFn := IdTensor → Scalar → LogitTensor

/-- First index attaining the running maximum `bv` (seen at index `bi`),
scanning the remaining entries from index `i`: a strictly larger entry
replaces the incumbent, so ties keep the earlier index. -/
def argmaxFrom (bi : Int) (bv : Scalar) (i : Int) : List Scalar → Int
  | [] => bi
  | y :: ys => if bv < y then argmaxFrom i y (i + 1) ys else argmaxFrom bi bv (i + 1) ys

/-- Index of the first maximal entry of a score vector; `tensor.max(-1)`
returns the first maximal index in the runtime, and an empty class
dimension does not occur (vocabulary size is positive). -/
def argmaxRow : List Scalar → Int
  | [] => 0
  | x :: xs => argmaxFrom 0 x 1 xs

/-- Elementwise embedding of `logits.max(-1)[1]`: argmax over the class
(last) dimension, giving an integer (batch, time) tensor. -/
def maxLastDimIndices (t : LogitTensor) : IdTensor :=
  t.map (fun row => row.map argmaxRow)

/-- Embedding of the slice `targets[:, 1:]`: drop the first column
(the leading start-of-sequence id) of every row. -/
def sliceFromCol1 (t : IdTensor) : IdTensor :=
  t.map (fun row => row.drop 1)

/-- Values stored in the dictionaries the Python methods return. -/
inductive PyValue where
  | scalar (x : Scalar)
  | ids (t : IdTensor)
  | floats3 (t : LogitTensor)
  | intvec (v : List Int)
  | sdict (d : List (String × Scalar))

/-- A Python dict / OrderedDict with string keys, as an ordered
association list. -/
abbrev PyDict := List (String × PyValue)

/-- Errors surfaced by the lifecycle methods: accessing `self.lm` before
`build_model` has set it raises an AttributeError naming the missing
attribute. -/
inductive PyError where
  | attributeError (name : String)

/-- The `model` section of the configuration object, with the fields
`build_model` and `__init__` read (`configs.model.xxx`). -/
structure ModelConfigs where
  teacher_forcing_ratio : Scalar
  max_length : Int
  hidden_state_dim : Int
  dropout_p : Scalar
  num_layers : Int
  rnn_type : String

/-- The resolved configuration object (`DictConfig`), restricted to the
fields this wrapper consumes. -/
structure DictConfig where
  model : ModelConfigs

/-- The vocabulary interface consumed: `pad_id`, `sos_id`, `eos_id` and
the size that determines `num_classes`. -/
structure Vocabulary where
  pad_id : Int
  sos_id : Int
  eos_id : Int
  size : Int

/-- The named arguments of the `LSTMDecoder(...)` construction performed
by `build_model`. -/
structure LSTMDecoderArgs where
  num_classes : Int
  max_length : Int
  hidden_state_dim : Int
  pad_id : Int
  sos_id : Int
  eos_id : Int
  dropout_p : Scalar
  num_layers : Int
  rnn_type : String

/-- State of an `LSTMLanguageModel` instance: the stored configs and
vocabulary, the base-class collaborators (criterion, WER/CER metrics,
`num_classes`), the external `LSTMDecoder` class as a construction
function, the copied `teacher_forcing_ratio`, and the `lm` attribute
(`none` until `build_model` assigns it). -/
structure LSTMLanguageModel where
  configs : DictConfig
  vocab : Vocabulary
  num_classes : Int
  criterion : LogitTensor → IdTensor → Scalar
  wer_metric : IdTensor → IdTensor → Scalar
  cer_metric : IdTensor → IdTensor → Scalar
  LSTMDecoder : LSTMDecoderArgs → DecoderFn
  teacher_forcing_ratio : Scalar
  lm : Option DecoderFn

/-- Modelled from the spec: `OpenspeechModel.__init__` (base class, not
under src/) stores configs and vocab, the vocabulary-derived
`num_classes`, and the external criterion and metric providers; the
subclass `__init__` then copies `configs.model.teacher_forcing_ratio`.
The `lm` attribute does not exist until `build_model` runs (modelled as
`none`). -/
def LSTMLanguageModel.init (configs : DictConfig) (vocab : Vocabulary)
    (criterion : LogitTensor → IdTensor → Scalar)
    (wer_metric : IdTensor → IdTensor → Scalar)
    (cer_metric : IdTensor → IdTensor → Scalar)
    (LSTMDecoder : LSTMDecoderArgs → DecoderFn) : LSTMLanguageModel :=
  { configs := configs
    vocab := vocab
    num_classes := vocab.size
    criterion := criterion
    wer_metric := wer_metric
    cer_metric := cer_metric
    LSTMDecoder := LSTMDecoder
    teacher_forcing_ratio := configs.model.teacher_forcing_ratio
    lm := none }

/-- Embedding of `build_model`: constructs the `LSTMDecoder` with the
nine named arguments read from configs and vocabulary and assigns it to
`self.lm`. -/
def LSTMLanguageModel.build_model (m : LSTMLanguageModel) : LSTMLanguageModel :=
  { m with lm := some (m.LSTMDecoder
      { num_classes := m.num_classes
        max_length := m.configs.model.max_length
        hidden_state_dim := m.configs.model.hidden_state_dim
        pad_id := m.vocab.pad_id
        sos_id := m.vocab.sos_id
        eos_id := m.vocab.eos_id
        dropout_p := m.configs.model.dropout_p
        num_layers := m.configs.model.num_layers
        rnn_type := m.configs.model.rnn_type }) }

/-- Modelled from the spec: `log_steps` (on the base class, not under
src/) is the per-stage logging hook invoked with (stage, wer, cer,
loss); it is fire-and-forget, no return value is consumed and it leaves
the wrapper state unchanged. -/
def LSTMLanguageModel.log_steps (m : LSTMLanguageModel) (stage : String)
    (wer cer loss : Scalar) : LSTMLanguageModel :=
  m

/-- Embedding of `collect_outputs(stage, logits, targets)`: loss is the
criterion on logits and `targets[:, 1:]`, `y_hats` is the argmax of the
logits, WER/CER compare the full targets with `y_hats`, `log_steps` is
invoked, and an OrderedDict with keys loss / progress_bar / log is
returned, the last two sharing one stage-tagged metric dict. -/
def LSTMLanguageModel.collect_outputs (m : LSTMLanguageModel) (stage : String)
    (logits : LogitTensor) (targets : IdTensor) : PyDict × LSTMLanguageModel :=
  let loss := m.criterion logits (sliceFromCol1 targets)
  let y_hats := maxLastDimIndices logits
  let wer := m.wer_metric targets y_hats
  let cer := m.cer_metric targets y_hats
  let m2 := m.log_steps stage wer cer loss
  let progress_bar_dict : List (String × Scalar) :=
    [(stage ++ "_perplexity", loss), ("wer", wer), ("cer", cer)]
  ([("loss", PyValue.scalar loss),
    ("progress_bar", PyValue.sdict progress_bar_dict),
    ("log", PyValue.sdict progress_bar_dict)], m2)

/-- Embedding of `forward(inputs)`: decode with
`teacher_forcing_ratio=0.0`, take argmax predictions, and return the
dict with keys predictions and logits. Accessing `self.lm` before
`build_model` raises an AttributeError. -/
def LSTMLanguageModel.forward (m : LSTMLanguageModel) (inputs : IdTensor) :
    Except PyError PyDict × LSTMLanguageModel :=
  match m.lm with
  | none => (Except.error (PyError.attributeError "lm"), m)
  | some lm =>
    let logits := lm inputs 0
    let predictions := maxLastDimIndices logits
    (Except.ok [("predictions", PyValue.ids predictions),
                ("logits", PyValue.floats3 logits)], m)

/-- Embedding of `training_step(batch, batch_idx)`: unpack the batch,
decode with the configured `teacher_forcing_ratio`, and collect outputs
under the stage tag train. -/
def LSTMLanguageModel.training_step (m : LSTMLanguageModel)
    (batch : IdTensor × IdTensor) (batch_idx : Nat) :
    Except PyError PyDict × LSTMLanguageModel :=
  let (inputs, targets) := batch
  match m.lm with
  | none => (Except.error (PyError.attributeError "lm"), m)
  | some lm =>
    let logits := lm inputs m.teacher_forcing_ratio
    let (out, m2) := m.collect_outputs "train" logits targets
    (Except.ok out, m2)

/-- Embedding of `validation_step(batch, batch_idx)`: unpack the batch,
decode with `teacher_forcing_ratio=0.0`, and collect outputs under the
stage tag valid. -/
def LSTMLanguageModel.validation_step (m : LSTMLanguageModel)
    (batch : IdTensor × IdTensor) (batch_idx : Nat) :
    Except PyError PyDict × LSTMLanguageModel :=
  let (inputs, targets) := batch
  match m.lm with
  | none => (Except.error (PyError.attributeError "lm"), m)
  | some lm =>
    let logits := lm inputs 0
    let (out, m2) := m.collect_outputs "valid" logits targets
    (Except.ok out, m2)

/-- Embedding of `test_step(batch, batch_idx)`: unpack the batch, decode
with `teacher_forcing_ratio=0.0`, and collect outputs under the stage
tag test. -/
def LSTMLanguageModel.test_step (m : LSTMLanguageModel)
    (batch : IdTensor × IdTensor) (batch_idx : Nat) :
    Except PyError PyDict × LSTMLanguageModel :=
  let (inputs, targets) := batch
  match m.lm with
  | none => (Except.error (PyError.attributeError "lm"), m)
  | some lm =>
    let logits := lm inputs 0
    let (out, m2) := m.collect_outputs "test" logits targets
    (Except.ok out, m2)

/-- The conformer-transducer model of the unit test, abstracted over its
encoder-decoder network, which maps inputs and input lengths to logits
and encoder output lengths. -/
structure ConformerTransducerModel where
  encodeDecode : FeatTensor → List Int → LogitTensor × List Int

/-- Modelled from the spec: `ConformerTransducerModel.forward` is not
under src/ (only its unit test is). Per the spec, inference applies no
teacher forcing and returns a mapping with at least `logits`,
`predictions` (argmax of the logits over the class dimension) and, for
this sequence-transducer variant, `encoder_output_lengths` — the keys
the unit test reads. -/
def ConformerTransducerModel.forward (m : ConformerTransducerModel)
    (inputs : FeatTensor) (input_lengths : List Int) : PyDict :=
  let (logits, encoder_output_lengths) := m.encodeDecode inputs input_lengths
  [("predictions", PyValue.ids (maxLastDimIndices logits)),
   ("logits", PyValue.floats3 logits),
   ("encoder_output_lengths", PyValue.intvec encoder_output_lengths)]

/-! Concrete instances used to exercise the embedding on closed inputs. -/

/-- A concrete decoder: each input token contributes a two-class score
row whose second entry records the forcing ratio. -/
def sampleDecoderFn : DecoderFn := fun inputs ratio =>
  inputs.map (fun row => row.map (fun t => [(t : Scalar), ratio]))

/-- A concrete wrapper state in which `build_model` has already run
(`lm` is set), with simple total stand-ins for the external criterion
and metrics. -/
def sampleModel : LSTMLanguageModel :=
  { configs := { model := { teacher_forcing_ratio := 0, max_length := 4,
                            hidden_state_dim := 2, dropout_p := 0,
                            num_layers := 1, rnn_type := "lstm" } }
    vocab := { pad_id := 0, sos_id := 1, eos_id := 2, size := 5 }
    num_classes := 5
    criterion := fun logits targets =>
      (logits.length : Scalar) + (targets.map List.length).sum
    wer_metric := fun targets y_hats =>
      (targets.length : Scalar) - (y_hats.length : Scalar)
    cer_metric := fun targets y_hats =>
      (targets.map List.length).sum + (y_hats.length : Scalar)
    LSTMDecoder := fun _ => sampleDecoderFn
    teacher_forcing_ratio := 0
    lm := some sampleDecoderFn }

/-- A concrete transducer whose network echoes its inputs as logits and
its input lengths as encoder output lengths. -/
def sampleTransducer : ConformerTransducerModel :=
  { encodeDecode := fun inputs lens => (inputs, lens) }

/-- Claim C1: for every stage call (training_step, validation_step,
test_step) on a batch (inputs, targets) of a built model, the loss entry
of the returned Result record is the criterion applied to the decoder
logits of that stage and the targets with the first column removed
(`targets[:, 1:]`), so the loss is computed only over the next-token
targets and never over the leading start-of-sequence column. -/
theorem loss_uses_shifted_targets (m : LSTMLanguageModel) (lm : DecoderFn)
    (inputs targets : IdTensor) (i : Nat) (h : m.lm = some lm) :
    ((m.training_step (inputs, targets) i).1.toOption.bind (List.lookup "loss")
      = some (PyValue.scalar (m.criterion (lm inputs m.teacher_forcing_ratio)
          (sliceFromCol1 targets))))
    ∧ ((m.validation_step (inputs, targets) i).1.toOption.bind (List.lookup "loss")
      = some (PyValue.scalar (m.criterion (lm inputs 0) (sliceFromCol1 targets))))
    ∧ ((m.test_step (inputs, targets) i).1.toOption.bind (List.lookup "loss")
      = some (PyValue.scalar (m.criterion (lm inputs 0) (sliceFromCol1 targets)))) := by
  simp only [LSTMLanguageModel.training_step, LSTMLanguageModel.validation_step,
    LSTMLanguageModel.test_step, LSTMLanguageModel.collect_outputs,
    LSTMLanguageModel.log_steps, h]
  refine ⟨?_, ?_, ?_⟩ <;> trivial

/-- Witness for claim C1 at a concrete built model and batch. -/
theorem loss_uses_shifted_targets_witness :
    sampleModel.lm = some sampleDecoderFn
    ∧ (((sampleModel.training_step ([[3, 4]], [[1, 5, 6]]) 0).1.toOption.bind
          (List.lookup "loss")
        = some (PyValue.scalar (sampleModel.criterion
            (sampleDecoderFn [[3, 4]] sampleModel.teacher_forcing_ratio)
            (sliceFromCol1 [[1, 5, 6]]))))
      ∧ (((sampleModel.validation_step ([[3, 4]], [[1, 5, 6]]) 0).1.toOption.bind
            (List.lookup "loss")
          = some (PyValue.scalar (sampleModel.criterion (sampleDecoderFn [[3, 4]] 0)
              (sliceFromCol1 [[1, 5, 6]])))))
      ∧ (((sampleModel.test_step ([[3, 4]], [[1, 5, 6]]) 0).1.toOption.bind
            (List.lookup "loss")
          = some (PyValue.scalar (sampleModel.criterion (sampleDecoderFn [[3, 4]] 0)
              (sliceFromCol1 [[1, 5, 6]])))))) :=
  ⟨rfl, loss_uses_shifted_targets sampleModel sampleDecoderFn [[3, 4]] [[1, 5, 6]] 0 rfl⟩

/-- Claim C2: validation_step and test_step invoke the decoder with
teacher forcing ratio 0 whatever the configured training ratio is, and
on the same batch with the same model state both yield the record of
collect_outputs at the very same logits and targets — hence equal loss —
differing only in the stage tag (valid versus test). -/
theorem valid_test_force_zero_and_agree (m : LSTMLanguageModel) (lm : DecoderFn)
    (inputs targets : IdTensor) (i : Nat) (h : m.lm = some lm) :
    (m.validation_step (inputs, targets) i).1
      = Except.ok (m.collect_outputs "valid" (lm inputs 0) targets).1
    ∧ (m.test_step (inputs, targets) i).1
      = Except.ok (m.collect_outputs "test" (lm inputs 0) targets).1
    ∧ (m.validation_step (inputs, targets) i).1.toOption.bind (List.lookup "loss")
      = (m.test_step (inputs, targets) i).1.toOption.bind (List.lookup "loss") := by
  simp only [LSTMLanguageModel.validation_step, LSTMLanguageModel.test_step,
    LSTMLanguageModel.collect_outputs, LSTMLanguageModel.log_steps, h]
  refine ⟨?_, ?_, ?_⟩ <;> trivial

/-- Witness for claim C2 at a concrete built model and batch. -/
theorem valid_test_force_zero_and_agree_witness :
    sampleModel.lm = some sampleDecoderFn
    ∧ ((sampleModel.validation_step ([[3, 4]], [[1, 5, 6]]) 0).1
        = Except.ok (sampleModel.collect_outputs "valid"
            (sampleDecoderFn [[3, 4]] 0) [[1, 5, 6]]).1
      ∧ (sampleModel.test_step ([[3, 4]], [[1, 5, 6]]) 0).1
        = Except.ok (sampleModel.collect_outputs "test"
            (sampleDecoderFn [[3, 4]] 0) [[1, 5, 6]]).1
      ∧ (sampleModel.validation_step ([[3, 4]], [[1, 5, 6]]) 0).1.toOption.bind
          (List.lookup "loss")
        = (sampleModel.test_step ([[3, 4]], [[1, 5, 6]]) 0).1.toOption.bind
            (List.lookup "loss")) :=
  ⟨rfl, valid_test_force_zero_and_agree sampleModel sampleDecoderFn
    [[3, 4]] [[1, 5, 6]] 0 rfl⟩

/-- Claim C3: when the configured teacher_forcing_ratio is 0, the decode
path of training_step is the decode path of forward: both invoke the
decoder with forcing ratio 0, so both produce the very same logits
`lm inputs 0` — forward returns them in its output dict and
training_step feeds them to collect_outputs. -/
theorem training_ratio_zero_matches_forward (m : LSTMLanguageModel) (lm : DecoderFn)
    (inputs targets : IdTensor) (i : Nat) (h : m.lm = some lm)
    (h0 : m.teacher_forcing_ratio = 0) :
    (m.forward inputs).1
      = Except.ok [("predictions", PyValue.ids (maxLastDimIndices (lm inputs 0))),
                   ("logits", PyValue.floats3 (lm inputs 0))]
    ∧ (m.training_step (inputs, targets) i).1
      = Except.ok (m.collect_outputs "train" (lm inputs 0) targets).1 := by
  simp only [LSTMLanguageModel.forward, LSTMLanguageModel.training_step, h, h0]
  refine ⟨?_, ?_⟩ <;> trivial

/-- Witness for claim C3: the concrete model has ratio 0. -/
theorem training_ratio_zero_matches_forward_witness :
    sampleModel.lm = some sampleDecoderFn
    ∧ sampleModel.teacher_forcing_ratio = 0
    ∧ ((sampleModel.forward [[3, 4]]).1
        = Except.ok [("predictions",
              PyValue.ids (maxLastDimIndices (sampleDecoderFn [[3, 4]] 0))),
            ("logits", PyValue.floats3 (sampleDecoderFn [[3, 4]] 0))]
      ∧ (sampleModel.training_step ([[3, 4]], [[1, 5, 6]]) 0).1
        = Except.ok (sampleModel.collect_outputs "train"
            (sampleDecoderFn [[3, 4]] 0) [[1, 5, 6]]).1) :=
  ⟨rfl, rfl, training_ratio_zero_matches_forward sampleModel sampleDecoderFn
    [[3, 4]] [[1, 5, 6]] 0 rfl rfl⟩

/-- Claim C4: forward applies no teacher forcing (the ratio passed to
the decoder is 0) and returns a mapping with the keys predictions and
logits, where predictions is the argmax of the logits over the class
(last) dimension; for the sequence-transducer variant the returned
mapping additionally holds the key encoder_output_lengths (its forward
is modelled from the spec, as only its unit test is under src/). -/
theorem forward_output_contract (m : LSTMLanguageModel) (lm : DecoderFn)
    (inputs : IdTensor) (h : m.lm = some lm) (tm : ConformerTransducerModel)
    (tinputs : FeatTensor) (tlens : List Int) :
    (m.forward inputs).1
      = Except.ok [("predictions", PyValue.ids (maxLastDimIndices (lm inputs 0))),
                   ("logits", PyValue.floats3 (lm inputs 0))]
    ∧ List.lookup "logits" (tm.forward tinputs tlens)
      = some (PyValue.floats3 (tm.encodeDecode tinputs tlens).1)
    ∧ List.lookup "predictions" (tm.forward tinputs tlens)
      = some (PyValue.ids (maxLastDimIndices (tm.encodeDecode tinputs tlens).1))
    ∧ List.lookup "encoder_output_lengths" (tm.forward tinputs tlens)
      = some (PyValue.intvec (tm.encodeDecode tinputs tlens).2) := by
  rcases htd : tm.encodeDecode tinputs tlens with ⟨lg, lens⟩
  simp only [LSTMLanguageModel.forward, ConformerTransducerModel.forward, h, htd]
  refine ⟨?_, ?_, ?_, ?_⟩ <;> trivial

/-- Witness for claim C4 at a concrete built model and transducer. -/
theorem forward_output_contract_witness :
    sampleModel.lm = some sampleDecoderFn
    ∧ ((sampleModel.forward [[3, 4]]).1
        = Except.ok [("predictions",
              PyValue.ids (maxLastDimIndices (sampleDecoderFn [[3, 4]] 0))),
            ("logits", PyValue.floats3 (sampleDecoderFn [[3, 4]] 0))]
      ∧ List.lookup "logits" (sampleTransducer.forward [[[1, 2]]] [2])
        = some (PyValue.floats3 (sampleTransducer.encodeDecode [[[1, 2]]] [2]).1)
      ∧ List.lookup "predictions" (sampleTransducer.forward [[[1, 2]]] [2])
        = some (PyValue.ids
            (maxLastDimIndices (sampleTransducer.encodeDecode [[[1, 2]]] [2]).1))
      ∧ List.lookup "encoder_output_lengths" (sampleTransducer.forward [[[1, 2]]] [2])
        = some (PyValue.intvec (sampleTransducer.encodeDecode [[[1, 2]]] [2]).2)) :=
  ⟨rfl, forward_output_contract sampleModel sampleDecoderFn [[3, 4]] rfl
    sampleTransducer [[[1, 2]]] [2]⟩

/-- Claim C5: each of training_step, validation_step and test_step
returns exactly the record produced by collect_outputs for its stage tag
(train, valid, test), and any record collect_outputs produces is a
mapping with exactly the keys loss (a scalar), progress_bar and log
(scalar-valued metric dicts), the last two sharing one dict. -/
theorem steps_route_through_collect_outputs (m : LSTMLanguageModel) (lm : DecoderFn)
    (inputs targets : IdTensor) (i : Nat) (stage : String) (logits : LogitTensor)
    (h : m.lm = some lm) :
    (m.training_step (inputs, targets) i).1
      = Except.ok (m.collect_outputs "train" (lm inputs m.teacher_forcing_ratio) targets).1
    ∧ (m.validation_step (inputs, targets) i).1
      = Except.ok (m.collect_outputs "valid" (lm inputs 0) targets).1
    ∧ (m.test_step (inputs, targets) i).1
      = Except.ok (m.collect_outputs "test" (lm inputs 0) targets).1
    ∧ ((m.collect_outputs stage logits targets).1.map Prod.fst
        = ["loss", "progress_bar", "log"])
    ∧ List.lookup "loss" (m.collect_outputs stage logits targets).1
      = some (PyValue.scalar (m.criterion logits (sliceFromCol1 targets)))
    ∧ ∃ pb : List (String × Scalar),
        List.lookup "progress_bar" (m.collect_outputs stage logits targets).1
          = some (PyValue.sdict pb)
        ∧ List.lookup "log" (m.collect_outputs stage logits targets).1
          = some (PyValue.sdict pb) := by
  simp only [LSTMLanguageModel.training_step, LSTMLanguageModel.validation_step,
    LSTMLanguageModel.test_step, LSTMLanguageModel.collect_outputs,
    LSTMLanguageModel.log_steps, h]
  exact ⟨by trivial, by trivial, by trivial, by trivial, by trivial,
    ⟨_, by trivial, by trivial⟩⟩

/-- Witness for claim C5 at a concrete built model, batch and stage. -/
theorem steps_route_through_collect_outputs_witness :
    sampleModel.lm = some sampleDecoderFn
    ∧ ((sampleModel.training_step ([[3, 4]], [[1, 5, 6]]) 0).1
        = Except.ok (sampleModel.collect_outputs "train"
            (sampleDecoderFn [[3, 4]] sampleModel.teacher_forcing_ratio) [[1, 5, 6]]).1
      ∧ (sampleModel.validation_step ([[3, 4]], [[1, 5, 6]]) 0).1
        = Except.ok (sampleModel.collect_outputs "valid"
            (sampleDecoderFn [[3, 4]] 0) [[1, 5, 6]]).1
      ∧ (sampleModel.test_step ([[3, 4]], [[1, 5, 6]]) 0).1
        = Except.ok (sampleModel.collect_outputs "test"
            (sampleDecoderFn [[3, 4]] 0) [[1, 5, 6]]).1
      ∧ ((sampleModel.collect_outputs "train" [[[7, 8]]] [[1, 5, 6]]).1.map Prod.fst
          = ["loss", "progress_bar", "log"])
      ∧ List.lookup "loss" (sampleModel.collect_outputs "train" [[[7, 8]]] [[1, 5, 6]]).1
        = some (PyValue.scalar (sampleModel.criterion [[[7, 8]]]
            (sliceFromCol1 [[1, 5, 6]])))
      ∧ ∃ pb : List (String × Scalar),
          List.lookup "progress_bar"
              (sampleModel.collect_outputs "train" [[[7, 8]]] [[1, 5, 6]]).1
            = some (PyValue.sdict pb)
          ∧ List.lookup "log"
              (sampleModel.collect_outputs "train" [[[7, 8]]] [[1, 5, 6]]).1
            = some (PyValue.sdict pb)) :=
  ⟨rfl, steps_route_through_collect_outputs sampleModel sampleDecoderFn
    [[3, 4]] [[1, 5, 6]] 0 "train" [[[7, 8]]] rfl⟩

/-- Claim C6: validation_step and test_step do not mutate the wrapper
state — the state component they return (the decoder held in `lm` and
every other field) is the state they were called on. -/
theorem valid_test_preserve_state (m : LSTMLanguageModel)
    (batch : IdTensor × IdTensor) (i : Nat) :
    (m.validation_step batch i).2 = m ∧ (m.test_step batch i).2 = m := by
  obtain ⟨inputs, targets⟩ := batch
  cases h : m.lm <;>
    simp [LSTMLanguageModel.validation_step, LSTMLanguageModel.test_step,
      LSTMLanguageModel.collect_outputs, LSTMLanguageModel.log_steps, h]

/-- Claim C7: running validation_step (or test_step) a second time on
the state returned by the first call, with the identical batch, returns
a result identical to the first one — there is no hidden stateful
mutation across calls, so the loss is bit-identical. -/
theorem valid_test_repeat_bit_identical (m : LSTMLanguageModel)
    (batch : IdTensor × IdTensor) (i : Nat) :
    ((m.validation_step batch i).2.validation_step batch i).1
      = (m.validation_step batch i).1
    ∧ ((m.test_step batch i).2.test_step batch i).1 = (m.test_step batch i).1 := by
  obtain ⟨inputs, targets⟩ := batch
  cases h : m.lm <;>
    simp [LSTMLanguageModel.validation_step, LSTMLanguageModel.test_step,
      LSTMLanguageModel.collect_outputs, LSTMLanguageModel.log_steps, h]

/-- Claim C8: on a freshly initialised wrapper on which build_model was
never called, every lifecycle call (forward, training_step,
validation_step, test_step) fails with the uninitialized-component
error (the missing `lm` attribute) instead of returning a Result
record. -/
theorem uninitialized_calls_fail (c : DictConfig) (v : Vocabulary)
    (crit : LogitTensor → IdTensor → Scalar)
    (wer cer : IdTensor → IdTensor → Scalar)
    (dec : LSTMDecoderArgs → DecoderFn) (inputs targets : IdTensor) (i : Nat) :
    ((LSTMLanguageModel.init c v crit wer cer dec).forward inputs).1
      = Except.error (PyError.attributeError "lm")
    ∧ ((LSTMLanguageModel.init c v crit wer cer dec).training_step (inputs, targets) i).1
      = Except.error (PyError.attributeError "lm")
    ∧ ((LSTMLanguageModel.init c v crit wer cer dec).validation_step (inputs, targets) i).1
      = Except.error (PyError.attributeError "lm")
    ∧ ((LSTMLanguageModel.init c v crit wer cer dec).test_step (inputs, targets) i).1
      = Except.error (PyError.attributeError "lm") :=
  ⟨rfl, rfl, rfl, rfl⟩

/-- Claim C9: batch_idx is informational only — two calls to the same
step method that differ only in batch_idx return identical outcomes,
result record and state alike. -/
theorem batch_idx_informational (m : LSTMLanguageModel)
    (batch : IdTensor × IdTensor) (i j : Nat) :
    m.training_step batch i = m.training_step batch j
    ∧ m.validation_step batch i = m.validation_step batch j
    ∧ m.test_step batch i = m.test_step batch j :=
  ⟨rfl, rfl, rfl⟩

/-- Claim C10: every record collect_outputs returns stores under
progress_bar and log one and the same metric dict with exactly the keys
stage ++ "_perplexity", wer and cer; the perplexity entry holds the
returned loss itself (the raw criterion value, not its exponential), and
wer/cer are the metrics on the argmax predictions against the full,
unshifted targets. -/
theorem collect_outputs_record_shape (m : LSTMLanguageModel) (stage : String)
    (logits : LogitTensor) (targets : IdTensor) :
    (m.collect_outputs stage logits targets).1
      = [("loss", PyValue.scalar (m.criterion logits (sliceFromCol1 targets))),
         ("progress_bar", PyValue.sdict
            [(stage ++ "_perplexity", m.criterion logits (sliceFromCol1 targets)),
             ("wer", m.wer_metric targets (maxLastDimIndices logits)),
             ("cer", m.cer_metric targets (maxLastDimIndices logits))]),
         ("log", PyValue.sdict
            [(stage ++ "_perplexity", m.criterion logits (sliceFromCol1 targets)),
             ("wer", m.wer_metric targets (maxLastDimIndices logits)),
             ("cer", m.cer_metric targets (maxLastDimIndices logits))])] :=
  rfl
